import Mathlib

/-!
Verification of the insight-aggregation engine
(services/insight-aggregator/src/aggregator.py, configuration defaults from
services/insight-aggregator/src/config.py).

Shallow embedding conventions:
* Python `dict` payloads are structures with `Option`-typed fields where key
  presence matters (`data.confidence`, `data.severity`, `data.description`);
  for the list-valued keys (`evidence`, `followup_questions`) an absent key
  and an empty list are observationally identical in the source (both extend
  nothing), so they are plain lists.
* Wall-clock instants (`datetime.utcnow()`) are rational numbers (seconds);
  each state-changing operation takes the instants it reads as parameters.
* Confidences and thresholds are rationals; every numeric scenario below is
  robust to floating-point rounding.
* The mutable `InsightAggregator` object is the explicit state `AggState`
  (buffer map, recent-alerts map, global insight counter); methods are pure
  functions from state to state.
* `list(set(xs))` (an arbitrary-order deduplication in CPython) is modelled
  by the deterministic first-occurrence deduplication `dedupFirst`; every
  property proved about its result is order-independent.
* Python `list.sort` (a stable sort) is modelled by `List.insertionSort`,
  which is also stable, and stability w.r.t. the sort key is proved below,
  so the two produce identical output.
-/

namespace settings

def insight_window_seconds : ℚ := 30

def min_confidence_threshold : ℚ := 7/10

def max_insights_per_batch : ℕ := 10

def fraud_alert_confidence : ℚ := 85/100

def contradiction_alert_confidence : ℚ := 80/100

def min_alert_interval_seconds : ℚ := 60

def generate_recommendations : Bool := true

def max_recommendations_per_round : ℕ := 5

end settings

/-- The open `data` mapping of a raw insight (producer-specific fields). -/
structure InsightData where
  confidence : Option ℚ
  severity : Option String
  description : Option String
  evidence : List String
  followup_questions : List String
deriving DecidableEq

/-- A raw insight record as buffered by the aggregator: the `source`, `type`
and `data` keys (each read with a default when absent) plus the
`received_at` stamp written by `add_insight`. -/
structure RawInsight where
  source : Option String
  insight_type : Option String
  data : InsightData
  received_at : Option ℚ
deriving DecidableEq

/-- Dataclass `AggregatedInsight` of aggregator.py. -/
structure AggregatedInsight where
  id : String
  round_id : String
  category : String
  insight_type : String
  confidence : ℚ
  severity : String
  title : String
  description : String
  evidence : List String
  source_services : List String
  followup_questions : List String
  timestamp : ℚ
  is_alert : Bool
deriving DecidableEq

/-- One recommendation dict produced by `_generate_recommendations`; the two
optional suggestion keys are modelled with `[]` for "key absent". -/
structure Recommendation where
  rec_type : String
  priority : String
  title : String
  description : String
  suggested_actions : List String
  suggested_questions : List String
  related_insight_id : String
deriving DecidableEq

/-- The summary dict.  The empty-buffer branch of `aggregate` returns a dict
carrying only `total_insights`; the `none` fields model the absent keys. -/
structure Summary where
  total_insights : ℕ
  alerts_count : Option ℕ
  by_category : Option (String → ℕ)
  by_severity : Option (String → ℕ)
  overall_confidence : Option ℚ

/-- Dataclass `InsightBatch` of aggregator.py. -/
structure InsightBatch where
  round_id : String
  insights : List AggregatedInsight
  recommendations : List Recommendation
  summary : Summary
  timestamp : ℚ

/-- The mutable state of an `InsightAggregator` object: `insight_buffer`
(a defaultdict, modelled as a total function with `[]` for absent keys),
`recent_alerts`, and the process-wide `insight_counter`. -/
structure AggState where
  insight_buffer : String → List RawInsight
  recent_alerts : String → Option ℚ
  insight_counter : ℕ

/-- A fresh `InsightAggregator()`. -/
def empty_state : AggState :=
  { insight_buffer := fun _ => [], recent_alerts := fun _ => none, insight_counter := 0 }

/-- First-occurrence deduplication: the deterministic stand-in for Python
`list(set(xs))` (see the header comment). -/
def dedupFirst {α : Type} [DecidableEq α] : List α → List α
  | [] => []
  | a :: l => a :: (dedupFirst l).filter (fun b => decide (b ≠ a))

/-- `_source_to_category`. -/
def source_to_category (source : String) : String :=
  if source = "speech-analysis" then "speech"
  else if source = "video-analysis" then "video"
  else if source = "fraud-detection" then "fraud"
  else if source = "nlp-engine" then "contradiction"
  else "other"

/-- The `(category, type)` grouping key computed in `_group_insights`. -/
def group_key (i : RawInsight) : String × String :=
  (source_to_category (i.source.getD ("unknown")), i.insight_type.getD ("unknown"))

/-- `_group_insights`: partition by `(category, type)`.  Keys appear in
first-occurrence order (Python dicts preserve insertion order) and each
group keeps buffer order. -/
def group_insights (insights : List RawInsight) :
    List ((String × String) × List RawInsight) :=
  (dedupFirst (insights.map group_key)).map
    (fun k => (k, insights.filter (fun i => decide (group_key i = k))))

/-- `_aggregate_severity`. -/
def aggregate_severity (severities : List String) : String :=
  if severities.isEmpty then "low"
  else
    let score := fun s : String =>
      if s = "high" then (3 : ℚ) else if s = "medium" then 2 else 1
    let avg := (severities.map score).sum / severities.length
    if 5/2 ≤ avg then "high" else if 3/2 ≤ avg then "medium" else "low"

/-- Python `str.title()` on the character level: a cased character directly
after an alphabetic one is lowercased, any other cased character is
uppercased. -/
def python_title_chars : Bool → List Char → List Char
  | _, [] => []
  | prev, c :: cs => (if prev then c.toLower else c.toUpper) :: python_title_chars c.isAlpha cs

def python_title (s : String) : String :=
  String.mk (python_title_chars false s.data)

/-- `_generate_title`. -/
def generate_title (category insight_type : String) (_insights : List RawInsight) : String :=
  if category = "fraud" ∧ insight_type = "multiple_faces" then "Multiple Faces Detected"
  else if category = "fraud" ∧ insight_type = "face_switch" then "Face Switch Detected"
  else if category = "fraud" ∧ insight_type = "background_voice" then "Background Voice Detected"
  else if category = "contradiction" ∧ insight_type = "contradiction" then "Resume Contradiction Found"
  else if category = "contradiction" ∧ insight_type = "skill_mismatch" then "Skill Level Mismatch"
  else if category = "speech" ∧ insight_type = "low_confidence" then "Low Speaking Confidence"
  else if category = "speech" ∧ insight_type = "high_hesitation" then "High Hesitation Detected"
  else if category = "video" ∧ insight_type = "head_movement" then "Unusual Head Movement"
  else if category = "video" ∧ insight_type = "low_quality" then "Video Quality Issue"
  else python_title category ++ ": " ++ python_title (insight_type.replace ("_") (" "))

/-- The loop at the top of `_generate_description`: the first record whose
`data` has a non-empty (truthy) `description` wins. -/
def first_description : List RawInsight → Option String
  | [] => none
  | i :: rest =>
    match i.data.description with
    | some d => if d ≠ "" then some d else first_description rest
    | none => first_description rest

/-- `_generate_description`. -/
def generate_description (category insight_type : String) (insights : List RawInsight) : String :=
  match first_description insights with
  | some d => d
  | none =>
    if category = "fraud" ∧ insight_type = "multiple_faces" then
      "Multiple people detected in the candidate's video feed. This may indicate someone else is present during the interview."
    else if category = "fraud" ∧ insight_type = "face_switch" then
      "The face in the video appears to have changed from the original candidate. Identity verification recommended."
    else if category = "fraud" ∧ insight_type = "background_voice" then
      "Additional voices detected in the audio that may indicate coaching or assistance."
    else if category = "contradiction" ∧ insight_type = "contradiction" then
      "The candidate's statement contradicts information on their resume."
    else if category = "contradiction" ∧ insight_type = "skill_mismatch" then
      "The candidate's demonstrated knowledge doesn't match the expertise level claimed on their resume."
    else if category = "speech" ∧ insight_type = "low_confidence" then
      "Speech analysis indicates the candidate may be uncertain about their response."
    else if category = "speech" ∧ insight_type = "high_hesitation" then
      "Frequent pauses and filler words detected in the candidate's response."
    else if category = "video" ∧ insight_type = "head_movement" then
      "Candidate is looking away from the camera frequently."
    else if category = "video" ∧ insight_type = "low_quality" then
      "Video quality is degraded, which may affect analysis accuracy."
    else "Observation in " ++ category ++ ": " ++ insight_type

/-- The evidence-collection loop of `_aggregate_group` (description, then the
`evidence` list, per record in group order, before deduplication). -/
def collect_evidence (insights : List RawInsight) : List String :=
  insights.foldr
    (fun i acc =>
      ((match i.data.description with | some d => [d] | none => []) ++ i.data.evidence) ++ acc)
    []

/-- The follow-up-question collection loop of `_aggregate_group`. -/
def collect_followups (insights : List RawInsight) : List String :=
  insights.foldr (fun i acc => i.data.followup_questions ++ acc) []

/-- `_aggregate_group`: the scorer for one `(category, type)` group.  Returns
the optional aggregated insight and the updated global `insight_counter`.
`now` stands for the wall clock read for the dataclass `timestamp` field. -/
def aggregate_group (now : ℚ) (round_id category insight_type : String)
    (insights : List RawInsight) (counter : ℕ) : Option AggregatedInsight × ℕ :=
  if insights.isEmpty then (none, counter)
  else
    let counter1 := counter + 1
    let insight_id := round_id ++ "-" ++ toString counter1
    let total_confidence : ℚ := (insights.map (fun i => i.data.confidence.getD (1/2))).sum
    let avg_confidence : ℚ := total_confidence / insights.length
    let source_services := dedupFirst (insights.map (fun i => i.source.getD ("unknown")))
    let boosted : ℚ :=
      if 1 < source_services.length then min 1 (avg_confidence * (11/10)) else avg_confidence
    let severity := aggregate_severity (insights.map (fun i => i.data.severity.getD ("low")))
    let evidence := (dedupFirst (collect_evidence insights)).take 5
    let followups := (dedupFirst (collect_followups insights)).take 3
    (some
      { id := insight_id, round_id := round_id, category := category,
        insight_type := insight_type, confidence := boosted, severity := severity,
        title := generate_title category insight_type insights,
        description := generate_description category insight_type insights,
        evidence := evidence, source_services := source_services,
        followup_questions := followups, timestamp := now, is_alert := false },
     counter1)

/-- The group loop of `aggregate`: score every group in iteration order,
threading the counter. -/
def score_groups (now : ℚ) (round_id : String) :
    List ((String × String) × List RawInsight) → ℕ → List AggregatedInsight × ℕ
  | [], counter => ([], counter)
  | g :: rest, counter =>
    let r := aggregate_group now round_id g.1.1 g.1.2 g.2 counter
    let t := score_groups now round_id rest r.2
    (r.1.toList ++ t.1, t.2)

/-- `category_priority` table from `__init__` (`.get` default 99). -/
def category_priority (c : String) : ℕ :=
  if c = "fraud" then 1
  else if c = "contradiction" then 2
  else if c = "speech" then 3
  else if c = "video" then 4
  else 99

/-- `severity_weights` table from `__init__` (`.get` default 0 in the sort key). -/
def severity_weight (s : String) : ℚ :=
  if s = "high" then 3 else if s = "medium" then 2 else if s = "low" then 1 else 0

/-- The Python sort key `(category_priority, -confidence, -severity_weight)`. -/
def sort_key (a : AggregatedInsight) : ℕ × ℚ × ℚ :=
  (category_priority a.category, -a.confidence, -(severity_weight a.severity))

/-- Lexicographic order on sort keys (Python tuple comparison). -/
def key_le (x y : ℕ × ℚ × ℚ) : Prop :=
  x.1 < y.1 ∨ (x.1 = y.1 ∧ (x.2.1 < y.2.1 ∨ (x.2.1 = y.2.1 ∧ x.2.2 ≤ y.2.2)))

instance key_le_decidable : @DecidableRel (ℕ × ℚ × ℚ) key_le := fun x y => by
  unfold key_le; infer_instance

/-- The comparison used by the stable sort in `aggregate`. -/
def ins_le (a b : AggregatedInsight) : Prop := key_le (sort_key a) (sort_key b)

instance ins_le_decidable : DecidableRel ins_le := fun a b => by
  unfold ins_le; infer_instance

theorem key_le_total (x y : ℕ × ℚ × ℚ) : key_le x y ∨ key_le y x := by
  unfold key_le
  rcases lt_trichotomy x.1 y.1 with h | h | h
  · exact Or.inl (Or.inl h)
  · rcases lt_trichotomy x.2.1 y.2.1 with h2 | h2 | h2
    · exact Or.inl (Or.inr ⟨h, Or.inl h2⟩)
    · rcases le_total x.2.2 y.2.2 with h3 | h3
      · exact Or.inl (Or.inr ⟨h, Or.inr ⟨h2, h3⟩⟩)
      · exact Or.inr (Or.inr ⟨h.symm, Or.inr ⟨h2.symm, h3⟩⟩)
    · exact Or.inr (Or.inr ⟨h.symm, Or.inl h2⟩)
  · exact Or.inr (Or.inl h)

theorem key_le_trans {x y z : ℕ × ℚ × ℚ} (hxy : key_le x y) (hyz : key_le y z) :
    key_le x z := by
  unfold key_le at *
  rcases hxy with h1 | ⟨e1, h1⟩
  · rcases hyz with g1 | ⟨f1, _⟩
    · exact Or.inl (h1.trans g1)
    · exact Or.inl (f1 ▸ h1)
  · rcases hyz with g1 | ⟨f1, g1⟩
    · exact Or.inl (e1 ▸ g1)
    · refine Or.inr ⟨e1.trans f1, ?_⟩
      rcases h1 with h2 | ⟨e2, h2⟩
      · rcases g1 with g2 | ⟨f2, _⟩
        · exact Or.inl (h2.trans g2)
        · exact Or.inl (f2 ▸ h2)
      · rcases g1 with g2 | ⟨f2, g2⟩
        · exact Or.inl (e2 ▸ g2)
        · exact Or.inr ⟨e2.trans f2, h2.trans g2⟩

instance : IsTotal AggregatedInsight ins_le :=
  ⟨fun x y => key_le_total (sort_key x) (sort_key y)⟩

instance : IsTrans AggregatedInsight ins_le := ⟨fun _ _ _ => key_le_trans⟩

/-- `key = f"{round_id}:{category}:{insight_type}"` in `_should_be_alert`. -/
def alert_key (i : AggregatedInsight) : String :=
  i.round_id ++ ":" ++ i.category ++ ":" ++ i.insight_type

/-- The pure promotion condition of `_should_be_alert` (evaluated when no
cooldown suppresses the key): category-specific confidence gates, plus the
high-severity gate. -/
def alert_gates (i : AggregatedInsight) : Bool :=
  decide ((i.category = "fraud" ∧ settings.fraud_alert_confidence ≤ i.confidence)
    ∨ (i.category = "contradiction" ∧ settings.contradiction_alert_confidence ≤ i.confidence)
    ∨ (i.severity = "high" ∧ (8/10 : ℚ) ≤ i.confidence))

/-- `_should_be_alert`: returns the flag and the updated `recent_alerts` map. -/
def should_be_alert (now : ℚ) (alerts : String → Option ℚ) (i : AggregatedInsight) :
    Bool × (String → Option ℚ) :=
  let key := alert_key i
  let suppressed :=
    match alerts key with
    | some t => decide (now - t < settings.min_alert_interval_seconds)
    | none => false
  if suppressed then (false, alerts)
  else if i.category = "fraud" ∧ settings.fraud_alert_confidence ≤ i.confidence then
    (true, fun k => if k = key then some now else alerts k)
  else if i.category = "contradiction" ∧ settings.contradiction_alert_confidence ≤ i.confidence then
    (true, fun k => if k = key then some now else alerts k)
  else if i.severity = "high" ∧ (8/10 : ℚ) ≤ i.confidence then
    (true, fun k => if k = key then some now else alerts k)
  else (false, alerts)

/-- The alert-marking loop of `aggregate`, threading `recent_alerts`. -/
def mark_alerts (now : ℚ) :
    (String → Option ℚ) → List AggregatedInsight →
      List AggregatedInsight × (String → Option ℚ)
  | alerts, [] => ([], alerts)
  | alerts, i :: rest =>
    let r := should_be_alert now alerts i
    let t := mark_alerts now r.2 rest
    ({ i with is_alert := r.1 } :: t.1, t.2)

/-- One insight's contribution in `_generate_recommendations`. -/
def recommendations_for (insight : AggregatedInsight) : List Recommendation :=
  if insight.is_alert = false then []
  else if insight.category = "fraud" then
    [{ rec_type := "action", priority := "high", title := "Verify Candidate Identity",
       description := "Based on " ++ insight.insight_type ++ ", consider verifying the candidate's identity.",
       suggested_actions := ["Ask the candidate to show their ID",
         "Request they pan the camera around the room",
         "Ask a question only they would know from their application"],
       suggested_questions := [], related_insight_id := insight.id }]
  else if insight.category = "contradiction" then
    [{ rec_type := "clarification", priority := "medium", title := "Clarify Resume Claim",
       description := insight.description, suggested_actions := [],
       suggested_questions :=
         if insight.followup_questions.isEmpty then
           ["Can you elaborate on that?", "Can you walk me through a specific example?"]
         else insight.followup_questions,
       related_insight_id := insight.id }]
  else if insight.category = "speech" ∧ insight.insight_type = "high_hesitation" then
    [{ rec_type := "observation", priority := "low", title := "Candidate Hesitation Noted",
       description := "The candidate appears hesitant. This could indicate uncertainty or nervousness.",
       suggested_actions := ["Consider asking for more specific examples",
         "Give the candidate time to think before answering"],
       suggested_questions := [], related_insight_id := insight.id }]
  else []

/-- `_generate_recommendations`. -/
def generate_recommendations (insights : List AggregatedInsight) : List Recommendation :=
  (insights.foldr (fun i acc => recommendations_for i ++ acc) []).take
    settings.max_recommendations_per_round

/-- `_create_summary`. -/
def create_summary (insights : List AggregatedInsight) : Summary :=
  { total_insights := insights.length,
    alerts_count := some (insights.filter (fun i => i.is_alert)).length,
    by_category := some (fun c => (insights.filter (fun i => decide (i.category = c))).length),
    by_severity := some (fun s => (insights.filter (fun i => decide (i.severity = s))).length),
    overall_confidence := some
      (if insights.isEmpty then 0
       else (insights.map (fun i => i.confidence)).sum / insights.length) }

/-- Stage of `aggregate`: group the buffered records and score every group. -/
def stage_scored (now : ℚ) (round_id : String) (st : AggState) :
    List AggregatedInsight × ℕ :=
  score_groups now round_id (group_insights (st.insight_buffer round_id)) st.insight_counter

/-- Stage of `aggregate`: the confidence-threshold filter. -/
def stage_filtered (l : List AggregatedInsight) : List AggregatedInsight :=
  l.filter (fun a => decide (settings.min_confidence_threshold ≤ a.confidence))

/-- Stage of `aggregate`: the stable multi-key sort. -/
def stage_sorted (l : List AggregatedInsight) : List AggregatedInsight :=
  List.insertionSort ins_le l

/-- Stage of `aggregate`: truncation to `max_insights_per_batch`. -/
def stage_limited (l : List AggregatedInsight) : List AggregatedInsight :=
  (stage_sorted l).take settings.max_insights_per_batch

/-- `aggregate`: the orchestration (read snapshot, group, score, filter,
sort, truncate, mark alerts, recommend, summarize).  It never clears the
buffer; the state change is the counter and the `recent_alerts` map. -/
def aggregate (now : ℚ) (round_id : String) (st : AggState) : InsightBatch × AggState :=
  let raw := st.insight_buffer round_id
  if raw.isEmpty then
    ({ round_id := round_id, insights := [], recommendations := [],
       summary := { total_insights := 0, alerts_count := none, by_category := none,
                    by_severity := none, overall_confidence := none },
       timestamp := now }, st)
  else
    let sc := stage_scored now round_id st
    let limited := stage_limited (stage_filtered sc.1)
    let ma := mark_alerts now st.recent_alerts limited
    let recs := if settings.generate_recommendations then generate_recommendations ma.1 else []
    ({ round_id := round_id, insights := ma.1, recommendations := recs,
       summary := create_summary ma.1, timestamp := now },
     { insight_buffer := st.insight_buffer, recent_alerts := ma.2,
       insight_counter := sc.2 })

/-- `add_insight` (including the `_cleanup_buffer` call it makes).  `now` is
the wall clock read for `received_at`; `cleanup_now` the (no earlier)
wall clock read for the eviction cutoff. -/
def add_insight (now cleanup_now : ℚ) (round_id : String) (insight : RawInsight)
    (st : AggState) : AggState :=
  let stamped := { insight with received_at := some now }
  let appended := st.insight_buffer round_id ++ [stamped]
  let cutoff := cleanup_now - settings.insight_window_seconds * 2
  let cleaned := appended.filter (fun i => decide (cutoff < i.received_at.getD cleanup_now))
  { st with insight_buffer := fun r => if r = round_id then cleaned else st.insight_buffer r }

/-- `clear_buffer`. -/
def clear_buffer (round_id : String) (st : AggState) : AggState :=
  { st with insight_buffer := fun r => if r = round_id then [] else st.insight_buffer r }

/-- `get_buffer_size`. -/
def get_buffer_size (round_id : String) (st : AggState) : ℕ :=
  (st.insight_buffer round_id).length

/-! ### Concrete scenario inputs -/

/-- A placeholder `AggregatedInsight` used only as the default of `Option.getD`
when naming a concretely computed insight. -/
def dummy_insight : AggregatedInsight :=
  { id := "", round_id := "", category := "", insight_type := "", confidence := 0,
    severity := "", title := "", description := "", evidence := [], source_services := [],
    followup_questions := [], timestamp := 0, is_alert := false }

/-- Raw insight `fraud/multiple_faces`, confidence 0.9, source fraud-detection. -/
def c1_i1 : RawInsight :=
  { source := some ("fraud-detection"), insight_type := some ("multiple_faces"),
    data := { confidence := some (9/10), severity := none, description := none,
              evidence := [], followup_questions := [] },
    received_at := none }

/-- Raw insight `multiple_faces`, confidence 0.95, source video-analysis. -/
def c1_i2 : RawInsight :=
  { source := some ("video-analysis"), insight_type := some ("multiple_faces"),
    data := { confidence := some (95/100), severity := none, description := none,
              evidence := [], followup_questions := [] },
    received_at := none }

/-- Raw insight `low_confidence`, confidence 0.4, source speech-analysis. -/
def c1_i3 : RawInsight :=
  { source := some ("speech-analysis"), insight_type := some ("low_confidence"),
    data := { confidence := some (4/10), severity := none, description := none,
              evidence := [], followup_questions := [] },
    received_at := none }

/-- The state after ingesting the three raw insights of the C1 scenario for
session "r1" (all at clock 0). -/
def c1_state : AggState :=
  add_insight 0 0 ("r1") c1_i3
    (add_insight 0 0 ("r1") c1_i2 (add_insight 0 0 ("r1") c1_i1 empty_state))

/-- The batch returned by `aggregate("r1")` in the C1 scenario. -/
def c1_batch : InsightBatch := (aggregate 0 ("r1") c1_state).1

/-- Two sessions "a" and "b", each with one buffered fraud insight. -/
def c2_state : AggState :=
  add_insight 0 0 ("b") c1_i1 (add_insight 0 0 ("a") c1_i1 empty_state)

/-- Aggregating session "a" first consumes counter value 1. -/
def c2_after_a : InsightBatch × AggState := aggregate 0 ("a") c2_state

/-- The batch then produced for session "b". -/
def c2_batch_b : InsightBatch := (aggregate 0 ("b") c2_after_a.2).1

/-- A session with a single high-confidence fraud record. -/
def c5_state : AggState := add_insight 0 0 ("r1") c1_i1 empty_state

/-- First `aggregate` call of the C5 scenario. -/
def c5_first : InsightBatch × AggState := aggregate 0 ("r1") c5_state

/-- Second, immediately repeated `aggregate` call of the C5 scenario. -/
def c5_second : InsightBatch := (aggregate 0 ("r1") c5_first.2).1

/-- A buffered record whose `received_at` lies far in the past. -/
def c6_old : RawInsight := { c1_i1 with received_at := some (-100) }

/-- A state whose session "r1" buffer holds only that stale record. -/
def c6_state : AggState :=
  { empty_state with insight_buffer := fun r => if r = "r1" then [c6_old] else [] }

/-- A group contributing eight distinct evidence strings. -/
def c7_group : List RawInsight :=
  [{ source := some ("fraud-detection"), insight_type := some ("multiple_faces"),
     data := { confidence := some (9/10), severity := none, description := none,
               evidence := ["e1", "e2", "e3", "e4", "e5", "e6", "e7", "e8"],
               followup_questions := [] },
     received_at := none }]

/-- The insight scored from `c7_group`. -/
def c7_insight : AggregatedInsight :=
  ((aggregate_group 0 ("r1") ("fraud") ("multiple_faces") c7_group 0).1).getD dummy_insight

/-- A raw record reporting an out-of-range confidence of 1.5. -/
def c4_bad : RawInsight :=
  { source := some ("fraud-detection"), insight_type := some ("x"),
    data := { confidence := some (3/2), severity := none, description := none,
              evidence := [], followup_questions := [] },
    received_at := none }

/-- A two-source group (fraud-detection at 0.9, video-analysis at 0.95). -/
def c4_g2 : List RawInsight := [c1_i1, c1_i2]

/-- The insight scored from `c4_g2`. -/
def c4_a2 : AggregatedInsight :=
  ((aggregate_group 0 ("r") ("fraud") ("multiple_faces") c4_g2 0).1).getD dummy_insight

/-- An aggregated fraud insight at confidence 0.9 (used to exercise the gate). -/
def c3_insight : AggregatedInsight :=
  { dummy_insight with
    round_id := "r1"
    category := "fraud"
    insight_type := "multiple_faces"
    confidence := 9/10 }

/-- An alert-state map holding a promotion at time 0 for the matching key. -/
def c3_alerts : String → Option ℚ :=
  fun k => if k = "r1:fraud:multiple_faces" then some 0 else none

/-- A session "x" with one buffered record (frame for `clear_buffer`). -/
def c10_state : AggState := add_insight 0 0 ("x") c1_i1 empty_state

/-- A session whose only record scores below the confidence threshold. -/
def c9_state : AggState := add_insight 0 0 ("r1") c1_i3 empty_state

/-- Drops the generated id and the alert flag: the fields of an aggregated
insight that depend on state outside the scored group. -/
def strip (a : AggregatedInsight) : AggregatedInsight := { a with id := "", is_alert := false }

/-- Drops only the alert flag. -/
def reset_alert (a : AggregatedInsight) : AggregatedInsight := { a with is_alert := false }

unseal Rat.add Rat.mul Rat.inv Rat.sub

/-! ### Helper lemmas -/

theorem mem_dedupFirst {α : Type} [DecidableEq α] {x : α} :
    ∀ {l : List α}, x ∈ dedupFirst l ↔ x ∈ l := by
  intro l
  induction l with
  | nil => simp [dedupFirst]
  | cons a l ih =>
    simp only [dedupFirst, List.mem_cons, List.mem_filter, ih, decide_eq_true_eq]
    by_cases h : x = a <;> simp [h]

theorem dedupFirst_nodup {α : Type} [DecidableEq α] : ∀ l : List α, (dedupFirst l).Nodup := by
  intro l
  induction l with
  | nil => simp [dedupFirst]
  | cons a l ih =>
    refine List.nodup_cons.mpr ⟨?_, ih.filter _⟩
    intro hmem
    have := (List.mem_filter.mp hmem).2
    simp at this

theorem dedupFirst_const {α : Type} [DecidableEq α] {s : α} :
    ∀ {l : List α}, l ≠ [] → (∀ x ∈ l, x = s) → dedupFirst l = [s] := by
  intro l
  induction l with
  | nil => intro h; exact absurd rfl h
  | cons a l ih =>
    intro _ hall
    have ha : a = s := hall a (List.mem_cons_self a l)
    have : ∀ x ∈ dedupFirst l, x = s := fun x hx => hall x (List.mem_cons_of_mem _ (mem_dedupFirst.mp hx))
    subst ha
    simp only [dedupFirst, List.cons.injEq, true_and]
    rw [List.filter_eq_nil_iff]
    intro x hx
    simp [this x hx]

theorem one_lt_length_of_mem_ne {α : Type} {x y : α} {l : List α}
    (hx : x ∈ l) (hy : y ∈ l) (hne : x ≠ y) : 1 < l.length := by
  match l with
  | [] => cases hx
  | [a] =>
    rw [List.mem_singleton] at hx hy
    exact absurd (hx.trans hy.symm) hne
  | a :: b :: t => simp [List.length_cons]

theorem list_sum_bounds : ∀ (l : List ℚ), (∀ x ∈ l, 0 ≤ x ∧ x ≤ 1) →
    0 ≤ l.sum ∧ l.sum ≤ (l.length : ℚ) := by
  intro l
  induction l with
  | nil => simp
  | cons a l ih =>
    intro h
    have ha := h a (List.mem_cons_self a l)
    have ht := ih fun x hx => h x (List.mem_cons_of_mem _ hx)
    simp only [List.sum_cons, List.length_cons]
    push_cast
    constructor <;> linarith [ha.1, ha.2, ht.1, ht.2]

/-! ### C1 -/

/-- C1 counterexample: in the scenario (three raw insights for "r1": fraud/
multiple_faces 0.9 from fraud-detection, multiple_faces 0.95 from
video-analysis, low_confidence 0.4 from speech-analysis), `aggregate("r1")`
returns TWO insights, not one: category is derived from each record's
source, so the 0.95 record lands in group (video, multiple_faces), not in
(fraud, multiple_faces), and passes the 0.7 filter on its own.  Hence the
fraud insight's confidence is 0.9 (single source, no boost), not 1.0. -/
theorem C1_counterexample :
    c1_batch.insights.length = 2
    ∧ c1_batch.insights.map (fun a => a.confidence) ≠ [1] := by decide

/-- C1 amended: the scenario's batch holds exactly two insights, in priority
order: (fraud, multiple_faces) with confidence 0.9 and isAlert = true, then
(video, multiple_faces) with confidence 0.95 and isAlert = false; the
speech insight (0.4 < 0.7) is filtered out, and exactly one recommendation
is produced, of type "action". -/
theorem C1_theorem :
    c1_batch.insights.map (fun a => (a.category, a.insight_type, a.confidence, a.is_alert))
      = [(("fraud"), ("multiple_faces"), (9:ℚ)/10, true),
         (("video"), ("multiple_faces"), (19:ℚ)/20, false)]
    ∧ c1_batch.recommendations.map (fun r => r.rec_type) = [("action")]
    ∧ c1_batch.summary.total_insights = 2 := by decide

/-! ### C2 -/

/-- C2 counterexample: the id counter is process-wide, not session-scoped.
With one buffered record in each of sessions "a" and "b", aggregating "a"
first and then "b" gives session "b" the id "b-2": its suffix sequence does
not start at 1 and depends on session "a"'s aggregation activity. -/
theorem C2_counterexample :
    c2_batch_b.insights.map (fun a => a.id) = [("b-2")]
    ∧ ("b-2" : String) ≠ "b-1" := by decide

/-- C2 amended: ids have the form "{sessionId}-{n}" where n is drawn from a
single process-wide counter: scoring a list of (non-empty) groups for a
session assigns the consecutive suffixes counter+1, ..., counter+len —
strictly increasing within the call (and across successive calls for the
same session, since the counter only grows) — but not restarting at 1 per
session and not independent of other sessions. -/
theorem C2_theorem (now : ℚ) (round_id : String)
    (groups : List ((String × String) × List RawInsight)) (counter : ℕ)
    (h : ∀ g ∈ groups, g.2 ≠ []) :
    (score_groups now round_id groups counter).1.map (fun a => a.id)
      = (List.range' (counter + 1) groups.length).map
          (fun n => round_id ++ "-" ++ toString n)
    ∧ (score_groups now round_id groups counter).2 = counter + groups.length := by
  induction groups generalizing counter with
  | nil => simp [score_groups]
  | cons g rest ih =>
    have hg : g.2 ≠ [] := h g (List.mem_cons_self g rest)
    have hne : g.2.isEmpty = false := by
      rw [List.isEmpty_eq_false]
      exact hg
    have ihr := ih (counter + 1) (fun g' hg' => h g' (List.mem_cons_of_mem _ hg'))
    constructor
    · show ((aggregate_group now round_id g.1.1 g.1.2 g.2 counter).1.toList
          ++ (score_groups now round_id rest
                (aggregate_group now round_id g.1.1 g.1.2 g.2 counter).2).1).map
            (fun a => a.id) = _
      simp only [aggregate_group, hne, Bool.false_eq_true, if_false, Option.toList_some,
        List.singleton_append, List.map_cons, List.length_cons]
      rw [show List.range' (counter + 1) (rest.length + 1)
            = (counter + 1) :: List.range' (counter + 1 + 1) rest.length
          from List.range'_succ (counter + 1) rest.length 1]
      simp only [List.map_cons, List.cons.injEq]
      exact ⟨by trivial, ihr.1⟩
    · show (score_groups now round_id rest
          (aggregate_group now round_id g.1.1 g.1.2 g.2 counter).2).2 = _
      simp only [aggregate_group, hne, Bool.false_eq_true, if_false]
      rw [ihr.2]
      simp only [List.length_cons]
      omega

/-- C2 witness: applying the amended theorem to one concrete non-empty group
with counter 5 yields id suffix 6. -/
theorem C2_witness :
    (score_groups 0 ("r") [((("fraud"), ("x")), [c1_i1])] 5).1.map (fun a => a.id)
      = (List.range' 6 1).map (fun n => ("r") ++ "-" ++ toString n)
    ∧ (score_groups 0 ("r") [((("fraud"), ("x")), [c1_i1])] 5).2 = 5 + 1 :=
  C2_theorem 0 ("r") [((("fraud"), ("x")), [c1_i1])] 5 (by decide)

/-! ### C10 -/

/-- C10: `clear_buffer(sessionId)` empties exactly that session's buffer
(`get_buffer_size` then returns 0) while every other session's records, the
insight counter and the whole recent-alerts map are untouched; clearing a
session with no buffer leaves the buffer map pointwise unchanged (a no-op,
and the total function cannot raise). -/
theorem C10_theorem (st : AggState) (round_id : String) :
    get_buffer_size round_id (clear_buffer round_id st) = 0
    ∧ (∀ r, r ≠ round_id →
        (clear_buffer round_id st).insight_buffer r = st.insight_buffer r)
    ∧ (clear_buffer round_id st).insight_counter = st.insight_counter
    ∧ (clear_buffer round_id st).recent_alerts = st.recent_alerts
    ∧ (st.insight_buffer round_id = [] →
        ∀ r, (clear_buffer round_id st).insight_buffer r = st.insight_buffer r) := by
  refine ⟨?_, ?_, rfl, rfl, ?_⟩
  · simp [get_buffer_size, clear_buffer]
  · intro r hr
    simp [clear_buffer, hr]
  · intro h r
    by_cases hr : r = round_id
    · subst hr
      simp [clear_buffer, h]
    · simp [clear_buffer, hr]

/-- C10 witness: on a state with one record in session "x", clearing "r1"
leaves size 0 for "r1" and session "x" untouched. -/
theorem C10_witness :
    get_buffer_size ("r1") (clear_buffer ("r1") c10_state) = 0
    ∧ (clear_buffer ("r1") c10_state).insight_buffer ("x")
        = c10_state.insight_buffer ("x") :=
  ⟨(C10_theorem c10_state ("r1")).1,
   (C10_theorem c10_state ("r1")).2.1 ("x") (by decide)⟩

/-! ### C9 -/

/-- C9: `aggregate` on a session with no buffered records returns (totally,
without raising) a batch with empty insights and recommendations and
`summary.total_insights = 0`; and when records exist but every scored group
falls below the confidence threshold, the insights list is likewise empty. -/
theorem C9_theorem (now : ℚ) (round_id : String) (st : AggState) :
    (st.insight_buffer round_id = [] →
      (aggregate now round_id st).1.insights = []
      ∧ (aggregate now round_id st).1.recommendations = []
      ∧ (aggregate now round_id st).1.summary.total_insights = 0)
    ∧ ((∀ a ∈ (stage_scored now round_id st).1,
          a.confidence < settings.min_confidence_threshold) →
        (aggregate now round_id st).1.insights = []
        ∧ (aggregate now round_id st).1.summary.total_insights = 0) := by
  constructor
  · intro h
    simp [aggregate, h]
  · intro h
    by_cases hemp : (st.insight_buffer round_id).isEmpty
    · simp [aggregate, hemp]
    · have hfil : stage_filtered (stage_scored now round_id st).1 = [] := by
        rw [stage_filtered, List.filter_eq_nil_iff]
        intro a ha
        simpa using not_le.mpr (h a ha)
      simp [aggregate, hemp, hfil, stage_limited, stage_sorted, List.insertionSort,
        mark_alerts, create_summary]

/-! ### C6 -/

/-- C6: immediately after `add_insight` (received at t1, cleanup cutoff read
at t2 ≥ t1), the session's buffer holds no record received before
t1 − 2·windowSeconds; in particular any buffered record whose `received_at`
was set more than 2·windowSeconds before the add is excluded from the next
snapshot. -/
theorem C6_theorem (st : AggState) (t1 t2 : ℚ) (round_id : String) (insight : RawInsight)
    (h : t1 ≤ t2) :
    (∀ r ∈ (add_insight t1 t2 round_id insight st).insight_buffer round_id,
      ∀ ta, r.received_at = some ta →
        t1 - 2 * settings.insight_window_seconds < ta)
    ∧ (∀ r ∈ st.insight_buffer round_id, ∀ ta, r.received_at = some ta →
        ta < t1 - 2 * settings.insight_window_seconds →
        r ∉ (add_insight t1 t2 round_id insight st).insight_buffer round_id) := by
  constructor
  · intro r hr ta hta
    simp only [add_insight, if_pos] at hr
    rw [List.mem_filter] at hr
    have hc := of_decide_eq_true hr.2
    rw [hta] at hc
    simp only [Option.getD_some] at hc
    linarith
  · intro r _ ta hta hold hmem
    simp only [add_insight, if_pos] at hmem
    rw [List.mem_filter] at hmem
    have hc := of_decide_eq_true hmem.2
    rw [hta] at hc
    simp only [Option.getD_some] at hc
    linarith

/-- C6 witness: a record stamped at −100 is evicted by an add at time 0
(window 30, so the cutoff is −60). -/
theorem C6_witness :
    c6_old ∉ (add_insight 0 0 ("r1") c1_i2 c6_state).insight_buffer ("r1") :=
  (C6_theorem c6_state 0 0 ("r1") c1_i2 (le_refl 0)).2 c6_old (by decide) (-100)
    (by decide) (by decide)

/-! ### C7 -/

/-- C7: every aggregated insight has at most 5 evidence entries and at most 3
follow-up questions, each list duplicate-free; and whenever a group
contributes at least 5 distinct evidence strings (e.g. 8), the evidence
list has exactly 5 entries. -/
theorem C7_theorem (now : ℚ) (round_id category insight_type : String)
    (g : List RawInsight) (counter : ℕ) (a : AggregatedInsight)
    (h : (aggregate_group now round_id category insight_type g counter).1 = some a) :
    a.evidence.length ≤ 5 ∧ a.evidence.Nodup
    ∧ a.followup_questions.length ≤ 3 ∧ a.followup_questions.Nodup
    ∧ (5 ≤ (dedupFirst (collect_evidence g)).length → a.evidence.length = 5) := by
  by_cases hg : g.isEmpty
  · simp [aggregate_group, hg] at h
  · simp only [aggregate_group, hg, Bool.false_eq_true, if_false, Option.some.injEq] at h
    subst h
    refine ⟨?_, ?_, ?_, ?_, ?_⟩
    · show ((dedupFirst (collect_evidence g)).take 5).length ≤ 5
      rw [List.length_take]
      omega
    · show ((dedupFirst (collect_evidence g)).take 5).Nodup
      exact (dedupFirst_nodup _).sublist (List.take_sublist 5 _)
    · show ((dedupFirst (collect_followups g)).take 3).length ≤ 3
      rw [List.length_take]
      omega
    · show ((dedupFirst (collect_followups g)).take 3).Nodup
      exact (dedupFirst_nodup _).sublist (List.take_sublist 3 _)
    · intro h5
      show ((dedupFirst (collect_evidence g)).take 5).length = 5
      rw [List.length_take]
      omega

/-- C7 witness: the group with 8 distinct evidence strings yields exactly 5
deduplicated evidence entries and at most 3 follow-up questions. -/
theorem C7_witness :
    c7_insight.evidence.length ≤ 5 ∧ c7_insight.evidence.Nodup
    ∧ c7_insight.followup_questions.length ≤ 3 ∧ c7_insight.followup_questions.Nodup
    ∧ (5 ≤ (dedupFirst (collect_evidence c7_group)).length →
        c7_insight.evidence.length = 5) :=
  C7_theorem 0 ("r1") ("fraud") ("multiple_faces") c7_group 0 c7_insight (by decide)

/-! ### C3 -/

/-- C3: the AlertGate cooldown.  (1) If the key's stored promotion timestamp
t satisfies now − t < minAlertIntervalSeconds, the call returns false and
leaves the alert map untouched (so every further call inside the window
sees the same timestamp and is likewise suppressed).  (2) When no stored
timestamp is inside the window, the result is exactly the pure
confidence/severity gate condition.  (3) A call returning false never
changes the map, and (4) a call returning true records `now` under the key. -/
theorem C3_theorem (now : ℚ) (alerts : String → Option ℚ) (i : AggregatedInsight) :
    (∀ t, alerts (alert_key i) = some t →
        now - t < settings.min_alert_interval_seconds →
        should_be_alert now alerts i = (false, alerts))
    ∧ ((∀ t, alerts (alert_key i) = some t →
          settings.min_alert_interval_seconds ≤ now - t) →
        (should_be_alert now alerts i).1 = alert_gates i)
    ∧ ((should_be_alert now alerts i).1 = false →
        (should_be_alert now alerts i).2 = alerts)
    ∧ ((should_be_alert now alerts i).1 = true →
        (should_be_alert now alerts i).2
          = fun k => if k = alert_key i then some now else alerts k) := by
  refine ⟨?_, ?_, ?_, ?_⟩
  · intro t ht hlt
    rw [should_be_alert, ht]
    simp [hlt]
  · intro hcool
    cases halerts : alerts (alert_key i) with
    | none =>
      rw [should_be_alert, halerts, alert_gates]
      simp only [Bool.false_eq_true, if_false]
      split_ifs with hf h1 h2 <;> simp_all [not_and, not_le]
    | some t =>
      have hge := hcool t halerts
      have hdec : decide (now - t < settings.min_alert_interval_seconds) = false :=
        decide_eq_false (not_lt.mpr hge)
      rw [should_be_alert, halerts, alert_gates]
      simp only [hdec, Bool.false_eq_true, if_false]
      split_ifs with h1 h2 h3 <;> simp_all [not_and, not_le]
  · rw [should_be_alert]
    cases halerts : alerts (alert_key i) <;>
      simp only [] <;> split_ifs <;> simp
  · rw [should_be_alert]
    cases halerts : alerts (alert_key i) <;>
      simp only [] <;> split_ifs <;> simp

/-- C3 witness: with a promotion recorded at time 0 for key
"r1:fraud:multiple_faces", the same key at time 10 (inside the 60s window)
is suppressed with the map untouched, while at time 100 (outside) the call
is decided by the pure gates. -/
theorem C3_witness :
    should_be_alert 10 c3_alerts c3_insight = (false, c3_alerts)
    ∧ (should_be_alert 100 c3_alerts c3_insight).1 = alert_gates c3_insight :=
  ⟨(C3_theorem 10 c3_alerts c3_insight).1 0 (by decide) (by decide),
   (C3_theorem 100 c3_alerts c3_insight).2.1 (fun t ht => by
      have h0 : c3_alerts (alert_key c3_insight) = some 0 := by decide
      rw [h0] at ht
      obtain rfl : (0:ℚ) = t := Option.some.inj ht
      decide)⟩

/-! ### C4 -/

/-- C4 counterexample: the scorer never clamps a single-source group, so one
record reporting confidence 1.5 yields an aggregated confidence of 1.5,
outside [0,1] — refuting the unconditional "in all cases the resulting
confidence lies in [0,1]". -/
theorem C4_counterexample :
    ((aggregate_group 0 ("r") ("fraud") ("x") [c4_bad] 0).1.map
        (fun a => a.confidence)) = some (3/2)
    ∧ ¬ ((3/2 : ℚ) ≤ 1) := by decide

/-- C4 amended: for a non-empty group whose reported confidences (default
0.5 when absent) sum to C over N records, the aggregated confidence is C/N
when all records carry one shared source, and min(1, (C/N)·1.1) when two
records carry distinct sources; and it lies in [0,1] provided every
reported (or defaulted) confidence lies in [0,1]. -/
theorem C4_theorem (now : ℚ) (round_id category insight_type : String)
    (g : List RawInsight) (counter : ℕ) (a : AggregatedInsight)
    (h : (aggregate_group now round_id category insight_type g counter).1 = some a) :
    ((∃ s, ∀ i ∈ g, i.source.getD ("unknown") = s) →
      a.confidence
        = (g.map (fun i => i.data.confidence.getD (1/2))).sum / g.length)
    ∧ ((∃ i1 ∈ g, ∃ i2 ∈ g, i1.source.getD ("unknown") ≠ i2.source.getD ("unknown")) →
      a.confidence
        = min 1 ((g.map (fun i => i.data.confidence.getD (1/2))).sum / g.length * (11/10)))
    ∧ ((∀ i ∈ g, 0 ≤ i.data.confidence.getD (1/2) ∧ i.data.confidence.getD (1/2) ≤ 1) →
      0 ≤ a.confidence ∧ a.confidence ≤ 1) := by
  by_cases hg : g.isEmpty
  · simp [aggregate_group, hg] at h
  · have hgne : g ≠ [] := by
      rw [← List.isEmpty_eq_false]
      exact Bool.not_eq_true _ ▸ by simpa using hg
    have hlen : 0 < g.length := List.length_pos.mpr hgne
    have hlenq : (0:ℚ) < (g.length : ℚ) := by exact_mod_cast hlen
    simp only [aggregate_group, hg, Bool.false_eq_true, if_false, Option.some.injEq] at h
    subst h
    refine ⟨?_, ?_, ?_⟩
    · rintro ⟨s, hs⟩
      show (if 1 < (dedupFirst (g.map (fun i => i.source.getD ("unknown")))).length
          then min 1 ((g.map (fun i => i.data.confidence.getD (1/2))).sum / g.length * (11/10))
          else (g.map (fun i => i.data.confidence.getD (1/2))).sum / g.length) = _
      have hconst : dedupFirst (g.map (fun i => i.source.getD ("unknown"))) = [s] := by
        refine dedupFirst_const ?_ ?_
        · simpa using hgne
        · intro x hx
          obtain ⟨i, hi, rfl⟩ := List.mem_map.mp hx
          exact hs i hi
      rw [hconst]
      norm_num
    · rintro ⟨i1, hi1, i2, hi2, hne⟩
      show (if 1 < (dedupFirst (g.map (fun i => i.source.getD ("unknown")))).length
          then min 1 ((g.map (fun i => i.data.confidence.getD (1/2))).sum / g.length * (11/10))
          else (g.map (fun i => i.data.confidence.getD (1/2))).sum / g.length) = _
      have h1 : i1.source.getD ("unknown")
          ∈ dedupFirst (g.map (fun i => i.source.getD ("unknown"))) :=
        mem_dedupFirst.mpr (List.mem_map_of_mem _ hi1)
      have h2 : i2.source.getD ("unknown")
          ∈ dedupFirst (g.map (fun i => i.source.getD ("unknown"))) :=
        mem_dedupFirst.mpr (List.mem_map_of_mem _ hi2)
      rw [if_pos (one_lt_length_of_mem_ne h1 h2 hne)]
    · intro hb
      have hsum := list_sum_bounds (g.map (fun i => i.data.confidence.getD (1/2)))
        (by
          intro x hx
          obtain ⟨i, hi, rfl⟩ := List.mem_map.mp hx
          exact hb i hi)
      rw [List.length_map] at hsum
      have havg0 : 0 ≤ (g.map (fun i => i.data.confidence.getD (1/2))).sum / g.length :=
        div_nonneg hsum.1 (le_of_lt hlenq)
      have havg1 : (g.map (fun i => i.data.confidence.getD (1/2))).sum / g.length ≤ 1 :=
        (div_le_one hlenq).mpr hsum.2
      show 0 ≤ (if 1 < (dedupFirst (g.map (fun i => i.source.getD ("unknown")))).length
          then min 1 ((g.map (fun i => i.data.confidence.getD (1/2))).sum / g.length * (11/10))
          else (g.map (fun i => i.data.confidence.getD (1/2))).sum / g.length)
        ∧ (if 1 < (dedupFirst (g.map (fun i => i.source.getD ("unknown")))).length
          then min 1 ((g.map (fun i => i.data.confidence.getD (1/2))).sum / g.length * (11/10))
          else (g.map (fun i => i.data.confidence.getD (1/2))).sum / g.length) ≤ 1
      split_ifs
      · constructor
        · exact le_min (by norm_num) (mul_nonneg havg0 (by norm_num))
        · exact min_le_left _ _
      · exact ⟨havg0, havg1⟩

/-- C4 witness: the two-source group (0.9 from fraud-detection, 0.95 from
video-analysis) gets the boosted confidence min(1, 0.925·1.1) = 1, inside
[0,1]. -/
theorem C4_witness :
    (c4_a2.confidence
      = min 1 ((c4_g2.map (fun i => i.data.confidence.getD (1/2))).sum / c4_g2.length * (11/10)))
    ∧ (0 ≤ c4_a2.confidence ∧ c4_a2.confidence ≤ 1) :=
  ⟨(C4_theorem 0 ("r") ("fraud") ("multiple_faces") c4_g2 0 c4_a2 (by decide)).2.1
      ⟨c1_i1, (by decide), c1_i2, (by decide), (by decide)⟩,
   (C4_theorem 0 ("r") ("fraud") ("multiple_faces") c4_g2 0 c4_a2 (by decide)).2.2 (by decide)⟩

/-! ### C5 and C8 infrastructure -/

theorem option_toList_map {α β : Type} (o : Option α) (f : α → β) :
    o.toList.map f = (o.map f).toList := by cases o <;> rfl

theorem strip_set_alert (i : AggregatedInsight) (x : Bool) :
    strip { i with is_alert := x } = strip i := rfl

theorem reset_set_alert (i : AggregatedInsight) (x : Bool) :
    reset_alert { i with is_alert := x } = reset_alert i := rfl

theorem sort_key_strip (a : AggregatedInsight) : sort_key (strip a) = sort_key a := rfl

theorem sort_key_congr {a b : AggregatedInsight} (h : strip a = strip b) :
    sort_key a = sort_key b :=
  (sort_key_strip a).symm.trans ((congrArg sort_key h).trans (sort_key_strip b))

theorem confidence_congr {a b : AggregatedInsight} (h : strip a = strip b) :
    a.confidence = b.confidence := by
  have h2 := congrArg AggregatedInsight.confidence h
  exact h2

theorem strip_aggregate_group (now : ℚ) (round_id category insight_type : String)
    (g : List RawInsight) (c1 c2 : ℕ) :
    ((aggregate_group now round_id category insight_type g c1).1).map strip
      = ((aggregate_group now round_id category insight_type g c2).1).map strip := by
  by_cases hg : g.isEmpty
  · simp [aggregate_group, hg]
  · simp only [aggregate_group, hg, Bool.false_eq_true, if_false, Option.map_some']
    rfl

theorem score_groups_map_strip (now : ℚ) (round_id : String) :
    ∀ (gs : List ((String × String) × List RawInsight)) (c1 c2 : ℕ),
      (score_groups now round_id gs c1).1.map strip
        = (score_groups now round_id gs c2).1.map strip := by
  intro gs
  induction gs with
  | nil => intro c1 c2; rfl
  | cons g rest ih =>
    intro c1 c2
    simp only [score_groups, List.map_append]
    rw [option_toList_map, option_toList_map,
      strip_aggregate_group now round_id g.1.1 g.1.2 g.2 c1 c2, ih]

theorem stage_filtered_map_strip :
    ∀ {l1 l2 : List AggregatedInsight}, l1.map strip = l2.map strip →
      (stage_filtered l1).map strip = (stage_filtered l2).map strip := by
  intro l1
  induction l1 with
  | nil =>
    intro l2 h
    cases l2 with
    | nil => rfl
    | cons b l2 => simp at h
  | cons a l1 ih =>
    intro l2 h
    cases l2 with
    | nil => simp at h
    | cons b l2 =>
      simp only [List.map_cons, List.cons.injEq] at h
      obtain ⟨hab, htl⟩ := h
      have hc : a.confidence = b.confidence := confidence_congr hab
      simp only [stage_filtered, List.filter_cons, hc]
      split_ifs with hp
      · simp only [List.map_cons, List.cons.injEq]
        have := ih htl
        simp only [stage_filtered] at this
        exact ⟨hab, this⟩
      · have := ih htl
        simp only [stage_filtered] at this
        exact this

theorem orderedInsert_map_strip {a b : AggregatedInsight} :
    ∀ {l1 l2 : List AggregatedInsight}, strip a = strip b → l1.map strip = l2.map strip →
      (List.orderedInsert ins_le a l1).map strip
        = (List.orderedInsert ins_le b l2).map strip := by
  intro l1
  induction l1 with
  | nil =>
    intro l2 hab h
    cases l2 with
    | nil => simp [List.orderedInsert, hab]
    | cons y l2 => simp at h
  | cons x l1 ih =>
    intro l2 hab h
    cases l2 with
    | nil => simp at h
    | cons y l2 =>
      simp only [List.map_cons, List.cons.injEq] at h
      obtain ⟨hxy, htl⟩ := h
      have hiff : ins_le a x ↔ ins_le b y := by
        unfold ins_le
        rw [sort_key_congr hab, sort_key_congr hxy]
      simp only [List.orderedInsert]
      by_cases hp : ins_le a x
      · rw [if_pos hp, if_pos (hiff.mp hp)]
        simp only [List.map_cons, List.cons.injEq]
        exact ⟨hab, hxy, htl⟩
      · rw [if_neg hp, if_neg (fun hq => hp (hiff.mpr hq))]
        simp only [List.map_cons, List.cons.injEq]
        exact ⟨hxy, ih hab htl⟩

theorem stage_sorted_map_strip :
    ∀ {l1 l2 : List AggregatedInsight}, l1.map strip = l2.map strip →
      (stage_sorted l1).map strip = (stage_sorted l2).map strip := by
  intro l1
  induction l1 with
  | nil =>
    intro l2 h
    cases l2 with
    | nil => rfl
    | cons b l2 => simp at h
  | cons a l1 ih =>
    intro l2 h
    cases l2 with
    | nil => simp at h
    | cons b l2 =>
      simp only [List.map_cons, List.cons.injEq] at h
      obtain ⟨hab, htl⟩ := h
      simp only [stage_sorted, List.insertionSort]
      have := ih htl
      simp only [stage_sorted] at this
      exact orderedInsert_map_strip hab this

theorem mark_alerts_map_strip (now : ℚ) :
    ∀ (l : List AggregatedInsight) (alerts : String → Option ℚ),
      (mark_alerts now alerts l).1.map strip = l.map strip := by
  intro l
  induction l with
  | nil => intro alerts; rfl
  | cons i rest ih =>
    intro alerts
    simp only [mark_alerts, List.map_cons, strip_set_alert]
    rw [ih]

theorem mark_alerts_map_reset (now : ℚ) :
    ∀ (l : List AggregatedInsight) (alerts : String → Option ℚ),
      (mark_alerts now alerts l).1.map reset_alert = l.map reset_alert := by
  intro l
  induction l with
  | nil => intro alerts; rfl
  | cons i rest ih =>
    intro alerts
    simp only [mark_alerts, List.map_cons, reset_set_alert]
    rw [ih]

theorem aggregate_buffer_eq (now : ℚ) (round_id : String) (st : AggState) :
    (aggregate now round_id st).2.insight_buffer = st.insight_buffer := by
  unfold aggregate
  by_cases h : (st.insight_buffer round_id).isEmpty <;> simp [h]

theorem aggregate_insights_empty (now : ℚ) (round_id : String) (st : AggState)
    (h : (st.insight_buffer round_id).isEmpty) :
    (aggregate now round_id st).1.insights = [] := by
  simp [aggregate, h]

/-! ### C5 -/

/-- C5 counterexample: repeating `aggregate` with no ingest in between does
NOT produce identical insight sets.  With one buffered fraud record at
confidence 0.9, the first call returns id "r1-1" with isAlert = true (and
records the promotion); the immediate second call returns id "r1-2" (the
global counter advanced) with isAlert = false (cooldown suppression). -/
theorem C5_counterexample :
    c5_first.1.insights.map (fun a => (a.id, a.is_alert)) = [(("r1-1"), true)]
    ∧ c5_second.insights.map (fun a => (a.id, a.is_alert)) = [(("r1-2"), false)]
    ∧ c5_first.1.insights ≠ c5_second.insights := by decide

/-- C5 amended: two immediately successive `aggregate` calls on the same
session (no ingest, clear or eviction in between) return insight lists that
are identical up to the generated `id` and the `isAlert` flag (the `strip`
projection): same length, categories, types, confidences, severities,
titles, descriptions, evidence, sources and follow-up questions, in the
same order.  The ids always differ (process-wide counter) and `isAlert` can
flip to false on the second call (cooldown), as the counterexample shows. -/
theorem C5_theorem (now : ℚ) (round_id : String) (st : AggState) :
    (aggregate now round_id ((aggregate now round_id st).2)).1.insights.map strip
      = (aggregate now round_id st).1.insights.map strip := by
  have hbuf : (aggregate now round_id st).2.insight_buffer = st.insight_buffer :=
    aggregate_buffer_eq now round_id st
  by_cases h : (st.insight_buffer round_id).isEmpty
  · rw [aggregate_insights_empty now round_id _ (by rw [hbuf]; exact h),
      aggregate_insights_empty now round_id st h]
  · set st1 := (aggregate now round_id st).2 with hst1
    have hscore : (stage_scored now round_id st1).1.map strip
        = (stage_scored now round_id st).1.map strip := by
      rw [stage_scored, stage_scored, hbuf]
      exact score_groups_map_strip now round_id _ _ _
    have hlim : (stage_limited (stage_filtered
          (stage_scored now round_id st1).1)).map strip
        = (stage_limited (stage_filtered (stage_scored now round_id st).1)).map strip := by
      rw [stage_limited, stage_limited, List.map_take, List.map_take,
        stage_sorted_map_strip (stage_filtered_map_strip hscore)]
    rw [aggregate, aggregate]
    rw [if_neg (by rw [hbuf]; simpa using h), if_neg (by simpa using h)]
    simp only [mark_alerts_map_strip]
    exact hlim

/-! ### C8 -/

theorem ins_le_of_sort_key_eq {a b : AggregatedInsight} (h : sort_key a = sort_key b) :
    ins_le a b := by
  unfold ins_le
  rw [h]
  exact Or.inr ⟨rfl, Or.inr ⟨rfl, le_refl _⟩⟩

theorem orderedInsert_filter_key (x : AggregatedInsight) (k : ℕ × ℚ × ℚ)
    (hx : sort_key x = k) :
    ∀ l : List AggregatedInsight,
      (List.orderedInsert ins_le x l).filter (fun a => decide (sort_key a = k))
        = x :: l.filter (fun a => decide (sort_key a = k)) := by
  intro l
  induction l with
  | nil => simp [List.orderedInsert, hx]
  | cons y ys ih =>
    simp only [List.orderedInsert]
    by_cases hle : ins_le x y
    · rw [if_pos hle]
      simp [List.filter_cons, hx]
    · rw [if_neg hle]
      have hy : ¬ (sort_key y = k) := fun hk =>
        hle (ins_le_of_sort_key_eq (hx.trans hk.symm))
      simp [List.filter_cons, hy, ih]

theorem orderedInsert_filter_not_key (x : AggregatedInsight) (k : ℕ × ℚ × ℚ)
    (hx : ¬ (sort_key x = k)) :
    ∀ l : List AggregatedInsight,
      (List.orderedInsert ins_le x l).filter (fun a => decide (sort_key a = k))
        = l.filter (fun a => decide (sort_key a = k)) := by
  intro l
  induction l with
  | nil => simp [List.orderedInsert, hx]
  | cons y ys ih =>
    simp only [List.orderedInsert]
    by_cases hle : ins_le x y
    · rw [if_pos hle]
      simp [List.filter_cons, hx]
    · rw [if_neg hle]
      simp [List.filter_cons, ih]

theorem insertionSort_filter_key (k : ℕ × ℚ × ℚ) :
    ∀ l : List AggregatedInsight,
      (List.insertionSort ins_le l).filter (fun a => decide (sort_key a = k))
        = l.filter (fun a => decide (sort_key a = k)) := by
  intro l
  induction l with
  | nil => rfl
  | cons a l ih =>
    simp only [List.insertionSort]
    by_cases ha : sort_key a = k
    · rw [orderedInsert_filter_key a k ha, ih, List.filter_cons]
      simp [ha]
    · rw [orderedInsert_filter_not_key a k ha, ih, List.filter_cons]
      simp [ha]

theorem score_groups_is_alert_false (now : ℚ) (round_id : String) :
    ∀ (gs : List ((String × String) × List RawInsight)) (c : ℕ),
      ∀ a ∈ (score_groups now round_id gs c).1, a.is_alert = false := by
  intro gs
  induction gs with
  | nil =>
    intro c a ha
    simp [score_groups] at ha
  | cons g rest ih =>
    intro c a ha
    simp only [score_groups, List.mem_append] at ha
    rcases ha with ha | ha
    · by_cases hg : g.2.isEmpty
      · simp [aggregate_group, hg] at ha
      · simp only [aggregate_group, hg, Bool.false_eq_true, if_false,
          Option.toList_some, List.mem_singleton] at ha
        rw [ha]
    · exact ih _ a ha

theorem list_map_id_of {α : Type} (f : α → α) :
    ∀ l : List α, (∀ a ∈ l, f a = a) → l.map f = l := by
  intro l
  induction l with
  | nil => intro _; rfl
  | cons a l ih =>
    intro h
    simp only [List.map_cons]
    rw [h a (List.mem_cons_self a l), ih (fun x hx => h x (List.mem_cons_of_mem _ hx))]

theorem reset_alert_eq_of {a : AggregatedInsight} (h : a.is_alert = false) :
    reset_alert a = a := by
  cases a
  simp only [reset_alert]
  simp at h
  simp [h]

/-- C8: the insights list returned by `aggregate` is sorted by the
lexicographic key (category priority ascending with fraud=1,
contradiction=2, speech=3, video=4, other=99; then confidence descending;
then severity weight high=3/medium=2/low=1 descending — `ins_le`); it holds
at most `maxInsightsPerBatch` (10) items; up to the alert flag it is
exactly the first 10 elements of the stable sort of the filtered
group-order list; and the sort is stable: for every key value, the sorted
list restricted to that key equals the pre-sort (group-iteration-order)
list restricted to that key. -/
theorem C8_theorem (now : ℚ) (round_id : String) (st : AggState) :
    (aggregate now round_id st).1.insights.Pairwise ins_le
    ∧ (aggregate now round_id st).1.insights.length ≤ settings.max_insights_per_batch
    ∧ (aggregate now round_id st).1.insights.map reset_alert
        = stage_limited (stage_filtered (stage_scored now round_id st).1)
    ∧ (∀ k, (stage_sorted (stage_filtered (stage_scored now round_id st).1)).filter
          (fun a => decide (sort_key a = k))
        = (stage_filtered (stage_scored now round_id st).1).filter
          (fun a => decide (sort_key a = k))) := by
  have h3 : (aggregate now round_id st).1.insights.map reset_alert
      = stage_limited (stage_filtered (stage_scored now round_id st).1) := by
    by_cases h : (st.insight_buffer round_id).isEmpty
    · have hb : st.insight_buffer round_id = [] := List.isEmpty_iff.mp h
      rw [aggregate_insights_empty now round_id st h]
      simp [stage_scored, hb, group_insights, dedupFirst, score_groups,
        stage_filtered, stage_sorted, stage_limited, List.insertionSort]
    · rw [aggregate, if_neg (by simpa using h)]
      simp only [mark_alerts_map_reset]
      apply list_map_id_of
      intro a ha
      rw [stage_limited] at ha
      have h1 := List.mem_of_mem_take ha
      rw [stage_sorted] at h1
      have h2 := (List.mem_insertionSort ins_le).mp h1
      rw [stage_filtered] at h2
      have h4 := (List.mem_filter.mp h2).1
      rw [stage_scored] at h4
      exact reset_alert_eq_of (score_groups_is_alert_false now round_id _ _ a h4)
  have hsor : (stage_sorted (stage_filtered (stage_scored now round_id st).1)).Pairwise ins_le :=
    List.sorted_insertionSort ins_le _
  have hlim : (stage_limited (stage_filtered (stage_scored now round_id st).1)).Pairwise ins_le := by
    rw [stage_limited]
    exact hsor.sublist (List.take_sublist _ _)
  refine ⟨?_, ?_, h3, fun k => insertionSort_filter_key k _⟩
  · have hmap : ((aggregate now round_id st).1.insights.map reset_alert).Pairwise ins_le := by
      rw [h3]
      exact hlim
    have hpw := List.pairwise_map.mp hmap
    exact hpw.imp (fun h => h)
  · have hlen : (aggregate now round_id st).1.insights.length
        = (stage_limited (stage_filtered (stage_scored now round_id st).1)).length := by
      rw [← h3, List.length_map]
    rw [hlen, stage_limited, List.length_take]
    exact min_le_left _ _

/-- C9 witness: a fresh state returns the empty batch for "r1", and a state
whose only record scores 0.4 (below 0.7) likewise yields an empty insights
list. -/
theorem C9_witness :
    ((aggregate 0 ("r1") empty_state).1.insights = []
      ∧ (aggregate 0 ("r1") empty_state).1.recommendations = []
      ∧ (aggregate 0 ("r1") empty_state).1.summary.total_insights = 0)
    ∧ ((aggregate 0 ("r1") c9_state).1.insights = []
      ∧ (aggregate 0 ("r1") c9_state).1.summary.total_insights = 0) :=
  ⟨(C9_theorem 0 ("r1") empty_state).1 rfl,
   (C9_theorem 0 ("r1") c9_state).2 (by decide)⟩
